import Mathlib

/-!
Shallow embedding of the md2pdf repository's core: the renderer process
lifecycle client (src/renderer_client.py) and the batch conversion
orchestrator (src/md2pdf_batch.py), together with the filename policy of
the interactive CLI (src/md2pdf.py).

Python exceptions are modelled by an explicit error type threaded through
`Except`; side effects (process spawn/terminate, HTTP requests, file reads
and writes, sleeps) are modelled by an explicit trace of `Event`s, and the
outside world (file system contents, HTTP responses, process liveness) by
an environment record of response functions.
-/

namespace Md2Pdf

/-- Exceptions of the `requests` library: `requests.Timeout`,
`requests.ConnectionError`, and HTTP-status errors raised by
`Response.raise_for_status`. All of them are subclasses of
`requests.RequestException` in the library. -/
inductive ReqException where
  | timeout (msg : String)
  | connectionError (msg : String)
  | httpStatus (code : Nat)
deriving DecidableEq, Repr

/-- Whether a `requests` exception is `requests.Timeout`. -/
def ReqException.isTimeout : ReqException → Bool
  | .timeout _ => true
  | _ => false

/-- Python exceptions that appear in the modelled modules. -/
inductive PyExc where
  | requestExc (e : ReqException)
  | rendererServerError (msg : String)
  | rendererTimeoutError (msg : String)
  | valueError (msg : String)
  | fileNotFoundError (msg : String)
  | typeError (msg : String)
  | osError (msg : String)
deriving DecidableEq, Repr

/-- `str(e)` for a Python exception: its message. -/
def PyExc.str : PyExc → String
  | .requestExc (.timeout m) => m
  | .requestExc (.connectionError m) => m
  | .requestExc (.httpStatus c) => "HTTP error " ++ toString c
  | .rendererServerError m => m
  | .rendererTimeoutError m => m
  | .valueError m => m
  | .fileNotFoundError m => m
  | .typeError m => m
  | .osError m => m

/-- An HTTP response as the `requests` library presents it: status code,
raw body bytes (`.content`), body text (`.text`) and, for the health
endpoint, the value `.json().get("status")` would produce. -/
structure Response where
  status_code : Nat
  json_status : Option String
  content : List Nat
  text : String
deriving DecidableEq, Repr

/-- `Response.raise_for_status()`: raises an HTTP-status error for
4xx/5xx responses, otherwise returns the response. -/
def raise_for_status (r : Response) : Except ReqException Response :=
  if 400 ≤ r.status_code then .error (.httpStatus r.status_code) else .ok r

/-- The `margins` object of the render options. -/
structure Margins where
  top : String
  bottom : String
  left : String
  right : String
deriving DecidableEq, Repr

/-- The options object POSTed to `/render/pdf`. `md2pdf_batch.convert_file`
fills `page_format`/`printBackground`/`margins`;
`md2pdf.process_conversion` additionally passes `waitForRendering`. -/
structure RenderOptions where
  page_format : String
  printBackground : Bool
  margins : Margins
  waitForRendering : Option Nat
deriving DecidableEq, Repr

/-- Observable side effects of the modelled code. -/
inductive Event where
  | spawn (port : Nat)
  | healthGet
  | sleepRetry
  | terminate (pid : Nat)
  | kill (pid : Nat)
  | postPdf (html : String) (options : Option RenderOptions)
  | postHtml (html : String)
  | readFile (path : String)
  | writeFile (path : String)
deriving DecidableEq, Repr

/-- Number of `spawn` events in a trace. -/
def countSpawn (evs : List Event) : Nat :=
  (evs.filter fun e => match e with | .spawn _ => true | _ => false).length

/-- Number of `terminate` events in a trace. -/
def countTerminate (evs : List Event) : Nat :=
  (evs.filter fun e => match e with | .terminate _ => true | _ => false).length

/-- The world surrounding one `RendererClient`: whether
`renderer/server.js` exists, the pid `subprocess.Popen` hands back, the
response of the `i`-th GET to `/health`, whether a terminated process
exits within `wait(timeout=5)`, whether `poll()` reports the process
alive, and the responses of POSTs to `/render/pdf` and `/render/html`
(keyed by the posted html). -/
structure Env where
  server_js_exists : Bool
  spawn_pid : Nat
  health_get : Nat → Except ReqException Response
  wait_exits : Nat → Bool
  proc_alive : Nat → Bool
  post_pdf : String → Except ReqException Response
  post_html : String → Except ReqException Response

/-- State of `RendererClient` (src/renderer_client.py): port, request
timeout, the owned process handle (`None` when not started) and the
base URL. -/
structure RendererClient where
  port : Nat
  timeout : Nat
  server_process : Option Nat
  base_url : String
deriving DecidableEq, Repr

/-- `RendererClient()` with the default arguments `port=3000`,
`timeout=60`. -/
def RendererClient.new : RendererClient :=
  { port := 3000, timeout := 60, server_process := none
    base_url := "http://localhost:3000" }

/-- `RendererClient.health_check` (renderer_client.py:123-141): GET
`/health`, `raise_for_status`, return the parsed json; any
`requests.RequestException` is converted to `RendererServerError`.
`i` is the index of this poll in the environment's response stream. -/
def health_check (env : Env) (i : Nat) : Except PyExc (Option String) × List Event :=
  match (env.health_get i).bind raise_for_status with
  | .ok r => (.ok r.json_status, [Event.healthGet])
  | .error _ => (.error (.rendererServerError "Health check failed"), [Event.healthGet])

/-- `RendererClient.stop_server` (renderer_client.py:99-108): if a process
is owned, `terminate()` it, `wait(timeout=5)`, `kill()` on expiry, and
always clear `server_process`; no-op otherwise. -/
def stop_server (env : Env) (c : RendererClient) : RendererClient × List Event :=
  match c.server_process with
  | none => (c, [])
  | some pid =>
      ({ c with server_process := none },
       if env.wait_exits pid then [Event.terminate pid]
       else [Event.terminate pid, Event.kill pid])

/-- `RendererClient.is_server_running` (renderer_client.py:110-121):
false when no process is owned, else whether `poll()` is `None`. -/
def is_server_running (env : Env) (c : RendererClient) : Bool :=
  match c.server_process with
  | none => false
  | some pid => env.proc_alive pid

/-- The exception classes caught by the retry loop of `start_server`:
`(requests.ConnectionError, requests.RequestException)`. Note that
`RendererServerError` — which is what `health_check` actually raises —
is not among them. -/
def caught_by_retry_except : PyExc → Bool
  | .requestExc _ => true
  | _ => false

/-- The health-poll retry loop of `start_server`
(renderer_client.py:85-97): up to `fuel` more polls starting at index
`i`; a poll whose json says `healthy` returns; any other outcome falls
through to `time.sleep(retry_delay)` and the next iteration, except an
uncaught exception, which propagates; on exhaustion, `stop_server` then
raise `RendererServerError`. -/
def start_retry_loop (env : Env) (c : RendererClient) (i fuel : Nat) :
    Except PyExc Unit × RendererClient × List Event :=
  match fuel with
  | 0 =>
      let s := stop_server env c
      (.error (.rendererServerError "Server failed to start after retries"), s.1, s.2)
  | fuel' + 1 =>
      let hc := health_check env i
      match hc.1 with
      | .ok st =>
          if st = some "healthy" then (.ok (), c, hc.2)
          else
            let r := start_retry_loop env c (i + 1) fuel'
            (r.1, r.2.1, hc.2 ++ [Event.sleepRetry] ++ r.2.2)
      | .error e =>
          if caught_by_retry_except e then
            let r := start_retry_loop env c (i + 1) fuel'
            (r.1, r.2.1, hc.2 ++ [Event.sleepRetry] ++ r.2.2)
          else (.error e, c, hc.2)

/-- `RendererClient.start_server` (renderer_client.py:53-97): no-op if a
process is already owned; raise if `renderer/server.js` is missing;
otherwise spawn the node process (recording the handle) and run the
health-poll retry loop with `max_retries` polls. -/
def start_server (env : Env) (c : RendererClient) (max_retries : Nat) :
    Except PyExc Unit × RendererClient × List Event :=
  if c.server_process.isSome then (.ok (), c, [])
  else if env.server_js_exists = false then
    (.error (.rendererServerError "Server not found"), c, [])
  else
    let c1 := { c with server_process := some env.spawn_pid }
    let r := start_retry_loop env c1 0 max_retries
    (r.1, r.2.1, Event.spawn c.port :: r.2.2)

/-- `RendererClient.render_pdf` (renderer_client.py:143-174): one POST to
`/render/pdf` with the html and options (the response to which the
environment supplies, keyed by the posted html), `raise_for_status`,
return `.content`; `requests.Timeout` becomes `RendererTimeoutError` and
any other `requests.RequestException` becomes `RendererServerError`. -/
def render_pdf (env : Env) (c : RendererClient) (html : String)
    (options : Option RenderOptions) : Except PyExc (List Nat) × List Event :=
  match (env.post_pdf html).bind raise_for_status with
  | .ok r => (.ok r.content, [Event.postPdf html options])
  | .error e =>
      if e.isTimeout then
        (.error (.rendererTimeoutError
          ("PDF rendering timed out after " ++ toString c.timeout ++ "s")),
         [Event.postPdf html options])
      else
        (.error (.rendererServerError "PDF rendering failed"),
         [Event.postPdf html options])

/-- The `with RendererClient() as client: ...` form
(renderer_client.py:204-212): `__enter__` runs `start_server` (an error
there propagates and the block is never entered); then the block body;
then `__exit__` runs `stop_server` and returns `False`, so a body error
propagates to the caller after the stop. -/
def withClient {α : Type} (env : Env) (c : RendererClient) (max_retries : Nat)
    (body : RendererClient → Except PyExc α × List Event) :
    Except PyExc α × RendererClient × List Event :=
  let s := start_server env c max_retries
  match s.1 with
  | .error e => (.error e, s.2.1, s.2.2)
  | .ok _ =>
      let b := body s.2.1
      let x := stop_server env s.2.1
      (b.1, x.1, s.2.2 ++ b.2 ++ x.2)

/-- Helper: `stop_server` always leaves `server_process` cleared. -/
theorem stop_server_clears (env : Env) (c : RendererClient) :
    (stop_server env c).1.server_process = none := by
  unfold stop_server
  cases h : c.server_process with
  | none => simpa using h
  | some pid => simp

/-- Helper: a concrete environment in which the renderer world behaves
well — `server.js` exists, every health poll answers 200 `healthy`,
every render POST answers 200 with a fixed body, terminated processes
exit within the grace period. Used to instantiate witnesses. -/
def envOk : Env where
  server_js_exists := true
  spawn_pid := 7
  health_get := fun _ => .ok ⟨200, some "healthy", [], ""⟩
  wait_exits := fun _ => true
  proc_alive := fun _ => true
  post_pdf := fun _ => .ok ⟨200, none, [37, 80, 68, 70], ""⟩
  post_html := fun _ => .ok ⟨200, none, [], "<h1>x</h1>"⟩

/-- C6: after any `stop_server` the owned-process reference is cleared,
so `is_server_running` is false and the client is startable again;
`stop_server` with nothing running is a no-op; and a second consecutive
`stop_server` changes nothing (idempotence). -/
theorem c6_stop_clears_and_idempotent (env : Env) (c : RendererClient) :
    (stop_server env c).1.server_process = none
    ∧ is_server_running env (stop_server env c).1 = false
    ∧ (c.server_process = none → stop_server env c = (c, []))
    ∧ stop_server env (stop_server env c).1 = ((stop_server env c).1, []) := by
  refine ⟨stop_server_clears env c, ?_, ?_, ?_⟩
  · unfold is_server_running
    rw [stop_server_clears env c]
  · intro h
    unfold stop_server
    rw [h]
  · have hnone : ∀ c' : RendererClient, c'.server_process = none →
        stop_server env c' = (c', []) := by
      intro c' h
      unfold stop_server
      rw [h]
    exact hnone (stop_server env c).1 (stop_server_clears env c)

/-- Witness for C6: a fresh client owns nothing, so stopping it is a
no-op, and stopping a client that owns process 7 clears the
reference. -/
theorem c6_witness :
    (RendererClient.new.server_process = none
      ∧ stop_server envOk RendererClient.new = (RendererClient.new, []))
    ∧ (stop_server envOk { RendererClient.new with server_process := some 7
        }).1.server_process = none := by
  refine ⟨⟨rfl, ?_⟩, ?_⟩
  · exact (c6_stop_clears_and_idempotent envOk RendererClient.new).2.2.1 rfl
  · exact (c6_stop_clears_and_idempotent envOk
      { RendererClient.new with server_process := some 7 }).1

/-- C7: calling `start_server` while a process is already owned is a
no-op — it returns immediately with no spawn (empty trace) and the whole
client state (port, timeout, owned-process reference, base URL)
unchanged. -/
theorem c7_start_noop_when_running (env : Env) (c : RendererClient) (mr pid : Nat)
    (h : c.server_process = some pid) :
    start_server env c mr = (.ok (), c, []) := by
  unfold start_server
  rw [h]
  rfl

/-- Helper: a health poll always records exactly one GET. -/
theorem health_check_events (env : Env) (i : Nat) :
    (health_check env i).2 = [Event.healthGet] := by
  unfold health_check
  cases (env.health_get i).bind raise_for_status <;> rfl

/-- Helper: if every poll the loop can make parses to a non-`healthy`
status, the loop exhausts its fuel, stops the owned process and fails
with the start error; its final state is the stopped one and its trace
ends with the stop trace. -/
theorem start_retry_loop_exhaust (env : Env) (c : RendererClient) (fuel : Nat) :
    ∀ i0 : Nat,
      (∀ j, i0 ≤ j → j < i0 + fuel →
        ∃ st, (health_check env j).1 = .ok st ∧ st ≠ some "healthy") →
      ∃ evs, start_retry_loop env c i0 fuel
        = (.error (.rendererServerError "Server failed to start after retries"),
           (stop_server env c).1, evs ++ (stop_server env c).2) := by
  induction fuel with
  | zero =>
      intro i0 _
      exact ⟨[], rfl⟩
  | succ fuel ih =>
      intro i0 h
      obtain ⟨st, hst, hne⟩ := h i0 (le_refl _) (by omega)
      obtain ⟨evs, hevs⟩ := ih (i0 + 1) (fun j hj1 hj2 => h j (by omega) (by omega))
      refine ⟨(health_check env i0).2 ++ [Event.sleepRetry] ++ evs, ?_⟩
      simp only [start_retry_loop]
      rw [hst]
      dsimp only
      rw [if_neg hne, hevs]
      simp

/-- Helper: if the loop returns normally, some poll it made parsed to the
`healthy` status. -/
theorem start_retry_loop_ok (env : Env) (c : RendererClient) (fuel : Nat) :
    ∀ i0 : Nat, (start_retry_loop env c i0 fuel).1 = .ok () →
      ∃ i, i0 ≤ i ∧ i < i0 + fuel ∧ (health_check env i).1 = .ok (some "healthy") := by
  induction fuel with
  | zero =>
      intro i0 hok
      exact absurd hok (by simp [start_retry_loop])
  | succ fuel ih =>
      intro i0 hok
      simp only [start_retry_loop] at hok
      cases hst : (health_check env i0).1 with
      | ok st =>
          rw [hst] at hok
          dsimp only at hok
          by_cases hne : st = some "healthy"
          · exact ⟨i0, le_refl _, by omega, by rw [hst, hne]⟩
          · rw [if_neg hne] at hok
            dsimp only at hok
            obtain ⟨i, hi1, hi2, hh⟩ := ih (i0 + 1) hok
            exact ⟨i, by omega, by omega, hh⟩
      | error e =>
          rw [hst] at hok
          dsimp only at hok
          by_cases hce : caught_by_retry_except e = true
          · rw [if_pos hce] at hok
            dsimp only at hok
            obtain ⟨i, hi1, hi2, hh⟩ := ih (i0 + 1) hok
            exact ⟨i, by omega, by omega, hh⟩
          · rw [if_neg hce] at hok
            exact absurd hok (by simp)

/-- C3: from the not-started state, (a) if every health poll in the
budget parses to a non-`healthy` status — the retry budget is exhausted —
then `start_server` fails with the start `RendererServerError`, has
terminated the partially-started process, and has cleared the
owned-process reference so the client is startable again; and (b) if
`start_server` returns normally it observed a `healthy` status, so it
never returns leaving the service unconfirmed. -/
theorem c3_start_exhaustion_sound (env : Env) (c : RendererClient) (mr : Nat)
    (hnone : c.server_process = none) (hjs : env.server_js_exists = true) :
    ((∀ j, j < mr → ∃ st, (health_check env j).1 = .ok st ∧ st ≠ some "healthy") →
       (start_server env c mr).1
           = .error (.rendererServerError "Server failed to start after retries")
       ∧ (start_server env c mr).2.1.server_process = none
       ∧ Event.terminate env.spawn_pid ∈ (start_server env c mr).2.2)
    ∧ ((start_server env c mr).1 = .ok () →
       ∃ i, i < mr ∧ (health_check env i).1 = .ok (some "healthy")) := by
  have hstart : start_server env c mr
      = ((start_retry_loop env { c with server_process := some env.spawn_pid } 0 mr).1,
         (start_retry_loop env { c with server_process := some env.spawn_pid } 0 mr).2.1,
         Event.spawn c.port ::
           (start_retry_loop env { c with server_process := some env.spawn_pid } 0 mr).2.2) := by
    unfold start_server
    rw [hnone, hjs]
    rfl
  constructor
  · intro h
    obtain ⟨evs, hevs⟩ := start_retry_loop_exhaust env
      { c with server_process := some env.spawn_pid } mr 0
      (fun j _ hj2 => h j (by omega))
    have hterm : Event.terminate env.spawn_pid
        ∈ (stop_server env { c with server_process := some env.spawn_pid }).2 := by
      unfold stop_server
      by_cases hw : env.wait_exits env.spawn_pid = true <;> simp [hw]
    refine ⟨?_, ?_, ?_⟩
    · rw [hstart, hevs]
    · rw [hstart, hevs]
      exact stop_server_clears env _
    · rw [hstart, hevs]
      simp only [List.mem_cons, List.mem_append]
      exact Or.inr (Or.inr hterm)
  · intro hok
    rw [hstart] at hok
    obtain ⟨i, _, hi2, hh⟩ := start_retry_loop_ok env
      { c with server_process := some env.spawn_pid } mr 0 hok
    exact ⟨i, by omega, hh⟩

/-- Witness for C3: a world whose health endpoint always answers 200
with status `starting`, so a 2-poll budget is exhausted. -/
theorem c3_witness :
    (RendererClient.new.server_process = none
      ∧ (envOk.server_js_exists = true
      ∧ ∀ j, j < 2 →
          ∃ st, (health_check { envOk with
            health_get := fun _ => .ok ⟨200, some "starting", [], ""⟩ } j).1
              = .ok st ∧ st ≠ some "healthy"))
    ∧ (start_server { envOk with
          health_get := fun _ => .ok ⟨200, some "starting", [], ""⟩ }
          RendererClient.new 2).2.1.server_process = none := by
  refine ⟨⟨rfl, rfl, ?_⟩, ?_⟩
  · intro j _
    exact ⟨some "starting", rfl, by decide⟩
  · exact ((c3_start_exhaustion_sound
      { envOk with health_get := fun _ => .ok ⟨200, some "starting", [], ""⟩ }
      RendererClient.new 2 rfl rfl).1
      (fun j _ => ⟨some "starting", rfl, by decide⟩)).2.1

/-- C5: `render_pdf` makes exactly one HTTP attempt (a single POST in its
trace, no retry); a 2xx/3xx response yields its raw body bytes; a
`requests.Timeout` yields `RendererTimeoutError`; a connection error or
a 4xx/5xx status yields `RendererServerError`. -/
theorem c5_render_pdf_classification (env : Env) (c : RendererClient) (html : String)
    (opts : Option RenderOptions) :
    (render_pdf env c html opts).2 = [Event.postPdf html opts]
    ∧ (∀ resp, env.post_pdf html = .ok resp → resp.status_code < 400 →
        (render_pdf env c html opts).1 = .ok resp.content)
    ∧ (∀ m, env.post_pdf html = .error (.timeout m) →
        (render_pdf env c html opts).1 = .error (.rendererTimeoutError
          ("PDF rendering timed out after " ++ toString c.timeout ++ "s")))
    ∧ (∀ m, env.post_pdf html = .error (.connectionError m) →
        (render_pdf env c html opts).1 = .error (.rendererServerError "PDF rendering failed"))
    ∧ (∀ resp, env.post_pdf html = .ok resp → 400 ≤ resp.status_code →
        (render_pdf env c html opts).1 = .error (.rendererServerError "PDF rendering failed")) := by
  refine ⟨?_, ?_, ?_, ?_, ?_⟩
  · unfold render_pdf
    cases h : (env.post_pdf html).bind raise_for_status with
    | ok r => rfl
    | error e =>
        by_cases ht : e.isTimeout = true <;> simp [ht]
  · intro resp h hlt
    unfold render_pdf
    rw [h]
    simp [Except.bind, raise_for_status, Nat.not_le.mpr hlt]
  · intro m h
    unfold render_pdf
    rw [h]
    rfl
  · intro m h
    unfold render_pdf
    rw [h]
    rfl
  · intro resp h hge
    unfold render_pdf
    rw [h]
    simp [Except.bind, raise_for_status, hge, ReqException.isTimeout]

/-- Witness for C5 at the well-behaved world: a 200 response returns the
posted body bytes. -/
theorem c5_witness :
    (envOk.post_pdf "<p>w</p>" = .ok ⟨200, none, [37, 80, 68, 70], ""⟩
      ∧ (200 : Nat) < 400)
    ∧ (render_pdf envOk RendererClient.new "<p>w</p>" none).1 = .ok [37, 80, 68, 70] := by
  refine ⟨⟨rfl, by decide⟩, ?_⟩
  exact (c5_render_pdf_classification envOk RendererClient.new "<p>w</p>" none).2.1
    ⟨200, none, [37, 80, 68, 70], ""⟩ rfl (by decide)

/-- C2: when acquisition succeeds, the scoped form runs `start_server`
first, then the block body on the started client, then `stop_server` —
in that trace order on every exit path — leaves the owned-process
reference cleared, and propagates a body error to the caller after the
stop has run. -/
theorem c2_with_block {α : Type} (env : Env) (c : RendererClient) (mr : Nat)
    (body : RendererClient → Except PyExc α × List Event)
    (hstart : (start_server env c mr).1 = .ok ()) :
    withClient env c mr body
      = ((body (start_server env c mr).2.1).1,
         (stop_server env (start_server env c mr).2.1).1,
         (start_server env c mr).2.2
           ++ (body (start_server env c mr).2.1).2
           ++ (stop_server env (start_server env c mr).2.1).2)
    ∧ (withClient env c mr body).2.1.server_process = none
    ∧ (∀ e, (body (start_server env c mr).2.1).1 = .error e →
        (withClient env c mr body).1 = .error e) := by
  have hw : withClient env c mr body
      = ((body (start_server env c mr).2.1).1,
         (stop_server env (start_server env c mr).2.1).1,
         (start_server env c mr).2.2
           ++ (body (start_server env c mr).2.1).2
           ++ (stop_server env (start_server env c mr).2.1).2) := by
    simp only [withClient]
    rw [hstart]
  refine ⟨hw, ?_, ?_⟩
  · rw [hw]
    exact stop_server_clears env _
  · intro e he
    rw [hw]
    exact he

/-- Witness for C2: in the well-behaved world a body that raises has its
error surfaced while the client still ends up stopped. -/
theorem c2_witness :
    (start_server envOk RendererClient.new 1).1 = .ok ()
    ∧ (withClient envOk RendererClient.new 1
        (fun _ => ((.error (.valueError "boom") : Except PyExc (List Nat)),
          [Event.postPdf "x" none]))).2.1.server_process = none := by
  refine ⟨by rfl, ?_⟩
  exact (c2_with_block envOk RendererClient.new 1
    (fun _ => ((.error (.valueError "boom") : Except PyExc (List Nat)),
      [Event.postPdf "x" none])) (by rfl)).2.1

/-- Witness for C7: a client already owning process 7 is untouched. -/
theorem c7_witness :
    start_server envOk { RendererClient.new with server_process := some 7 } 10
      = (.ok (), { RendererClient.new with server_process := some 7 }, []) :=
  c7_start_noop_when_running envOk
    { RendererClient.new with server_process := some 7 } 10 7 rfl

/-! ### Paths

Just enough of `pathlib` for the modelled modules: a path is the string
the CLI was given; `nameOf`/`parentOf` split on the final `/`, and
`stemOf` implements `PurePath.stem` (drop the last extension when the
final dot is neither leading nor trailing). All functions are structural
so that concrete instances evaluate. -/

/-- Split a character list at every `/` (the grouping step of
`Path` component splitting). -/
def splitOnSlash : List Char → List (List Char)
  | [] => [[]]
  | c :: cs =>
      let r := splitOnSlash cs
      if c = '/' then [] :: r
      else
        match r with
        | [] => [[c]]
        | g :: gs => (c :: g) :: gs

/-- The `/`-separated components of a path string. -/
def splitPath (path : String) : List String :=
  (splitOnSlash path.toList).map (fun g => String.mk g)

/-- `Path(p).name`: the final component. -/
def nameOf (path : String) : String := (splitPath path).getLastD ""

/-- Join path components back with `/`. -/
def joinComps : List String → String
  | [] => ""
  | [c] => c
  | c :: cs => c ++ "/" ++ joinComps cs

/-- `Path(p).parent`: all but the final component, `"."` when there is
none. -/
def parentOf (path : String) : String :=
  let comps := (splitPath path).dropLast
  if comps.isEmpty then "." else joinComps comps

/-- `dir / fname` of `pathlib` (with `Path(".") / f = f`). -/
def joinPath (dir fname : String) : String :=
  if dir = "." then fname else dir ++ "/" ++ fname

/-- Index of the last `.` in a character list, if any
(`str.rfind('.')`). -/
def rfind_dot : List Char → Option Nat
  | [] => none
  | c :: cs =>
      match rfind_dot cs with
      | some i => some (i + 1)
      | none => if c = '.' then some 0 else none

/-- `PurePath.stem` on a file name: drop the last suffix when the final
dot is neither the first nor the last character. -/
def stemOf (name : String) : String :=
  let cs := name.toList
  match rfind_dot cs with
  | some i => if 0 < i ∧ i + 1 < cs.length then String.mk (cs.take i) else name
  | none => name

/-- `s.endswith(suf)`. -/
def ends_with (s suf : String) : Bool :=
  suf.toList.isSuffixOf s.toList

/-- Lexicographic comparison of character lists (the order `sorted` uses
on strings), written structurally so it evaluates. -/
def charListLe : List Char → List Char → Bool
  | [], _ => true
  | _ :: _, [] => false
  | a :: as, b :: bs =>
      if a = b then charListLe as bs else decide (a < b)

/-- Lexicographic string comparison. -/
def str_le (a b : String) : Bool := charListLe a.toList b.toList

/-- `sorted(set(xs))` on strings: sort the deduplicated list
lexicographically. -/
def sorted_set (xs : List String) : List String :=
  List.insertionSort (fun a b => str_le a b = true) xs.dedup

/-! ### Configuration (config_loader / the config dictionary) -/

/-- The `pdf_options` section of the configuration, every key optional
(consumers use `.get` with defaults). -/
structure PdfOptionsCfg where
  page_size : Option String
  print_background : Option Bool
  margins : Option Margins
deriving DecidableEq, Repr

/-- The slice of the loaded configuration dictionary the modelled code
reads: `pdf_options` and `rendering.wait_for_rendering`. -/
structure Config where
  pdf_options : Option PdfOptionsCfg
  wait_for_rendering : Option Nat
deriving DecidableEq, Repr

/-- The render options `md2pdf_batch.convert_file` builds
(md2pdf_batch.py:110-118): `page_size` defaulting to `letter`,
`print_background` defaulting to true, margins defaulting to 1in on
every side; no `waitForRendering`. -/
def batch_render_options (config : Config) : RenderOptions :=
  let pdf_opts := config.pdf_options.getD ⟨none, none, none⟩
  { page_format := pdf_opts.page_size.getD "letter"
    printBackground := pdf_opts.print_background.getD true
    margins := pdf_opts.margins.getD ⟨"1in", "1in", "1in", "1in"⟩
    waitForRendering := none }

/-- The render options `md2pdf.process_conversion` builds
(md2pdf.py:397-404): like the batch ones but with default page size
`Letter` and a `waitForRendering` defaulting to 1000. -/
def cli_render_options (config : Config) : RenderOptions :=
  let pdf_opts := config.pdf_options.getD ⟨none, none, none⟩
  { page_format := pdf_opts.page_size.getD "Letter"
    printBackground := pdf_opts.print_background.getD true
    margins := pdf_opts.margins.getD ⟨"1in", "1in", "1in", "1in"⟩
    waitForRendering := some (config.wait_for_rendering.getD 1000) }

/-! ### Batch orchestrator (src/md2pdf_batch.py) -/

/-- The world around the batch CLI: the renderer world, the file system
(`Path.is_file`, `glob.glob` restricted to it, reads, writes), the
available themes (the theme provider is an external collaborator per the
spec, so its interface is a plain list) and the loaded configuration. -/
structure BatchEnv where
  renderer : Env
  is_file : String → Bool
  glob : String → List String
  list_themes : List String
  read_text : String → Except PyExc String
  load_config : Except PyExc Config
  build_html : String → String → Config → Except PyExc String
  write_bytes : String → List Nat → Except PyExc Unit
  write_text : String → String → Except PyExc Unit

/-- The per-pattern loop of `resolve_files` (md2pdf_batch.py:37-52): a
direct file path is appended; otherwise the glob matches that are files
are appended, and a pattern with no such matches fails the whole call
with `FileNotFoundError`. -/
def resolve_loop (env : BatchEnv) : List String → Except PyExc (List String)
  | [] => .ok []
  | pattern :: rest =>
      if env.is_file pattern then
        (resolve_loop env rest).map (fun rs => pattern :: rs)
      else
        let files := (env.glob pattern).filter (fun m => env.is_file m)
        if files.isEmpty = true ∧ env.is_file pattern = false then
          .error (.fileNotFoundError ("No files found matching: " ++ pattern))
        else
          (resolve_loop env rest).map (fun rs => files ++ rs)

/-- `resolve_files` (md2pdf_batch.py:22-57): run the per-pattern loop,
fail when nothing at all was resolved, and return `sorted(set(...))`. -/
def resolve_files (env : BatchEnv) (patterns : List String) :
    Except PyExc (List String) :=
  match resolve_loop env patterns with
  | .error e => .error e
  | .ok resolved =>
      if resolved.isEmpty then .error (.fileNotFoundError "No files found")
      else .ok (sorted_set resolved)

/-- `validate_theme` (md2pdf_batch.py:60-71): `ValueError` when the theme
is not among the available ones. -/
def validate_theme (env : BatchEnv) (theme : String) : Except PyExc Unit :=
  if theme ∈ env.list_themes then .ok ()
  else .error (.valueError ("Theme " ++ theme ++ " not found"))

/-- The per-file result dictionary of `convert_file`:
`{success, input, output, error}`. -/
structure ConvResult where
  success : Bool
  input : String
  output : Option String
  error : Option String
deriving DecidableEq, Repr

/-- Sequencing in the exception monad while accumulating the event
trace: an error short-circuits but keeps the events already emitted. -/
def pbind {α β : Type} (x : Except PyExc α × List Event)
    (f : α → Except PyExc β × List Event) : Except PyExc β × List Event :=
  match x.1 with
  | .error e => (.error e, x.2)
  | .ok a => ((f a).1, x.2 ++ (f a).2)

/-- The output-path policy of `convert_file` (md2pdf_batch.py:94-97):
`output_dir / f"{stem}.{format}"` when a custom directory is given, else
next to the input. -/
def batch_output_path (input_file format : String) (output_dir : Option String) :
    String :=
  let out_name := stemOf (nameOf input_file) ++ "." ++ format
  match output_dir with
  | some d => joinPath d out_name
  | none => joinPath (parentOf input_file) out_name

/-- The body of the `try` block of `convert_file`
(md2pdf_batch.py:92-125): output path from the input's stem and the
format, read the markdown, load the config, build the html, then either
render to PDF through a fresh scoped `RendererClient` and write the
bytes, or write the html text. -/
def convert_file_body (env : BatchEnv) (input_file format theme : String)
    (output_dir : Option String) : Except PyExc String × List Event :=
  let output_path := batch_output_path input_file format output_dir
  pbind (env.read_text input_file, [Event.readFile input_file]) fun md =>
  pbind (env.load_config, []) fun config =>
  pbind (env.build_html md theme config, []) fun html =>
  if format = "pdf" then
    let w := withClient env.renderer RendererClient.new 10
      (fun cl => render_pdf env.renderer cl html (some (batch_render_options config)))
    pbind (w.1, w.2.2) fun pdf_bytes =>
    pbind (env.write_bytes output_path pdf_bytes, [Event.writeFile output_path]) fun _ =>
    (.ok output_path, [])
  else
    pbind (env.write_text output_path html, [Event.writeFile output_path]) fun _ =>
    (.ok output_path, [])

/-- `convert_file` (md2pdf_batch.py:74-140): run the body; any exception
is caught and becomes a failure entry carrying the input identity and
`str(e)`; success carries the output path. -/
def convert_file (env : BatchEnv) (input_file format theme : String)
    (output_dir : Option String) : ConvResult × List Event :=
  let b := convert_file_body env input_file format theme output_dir
  match b.1 with
  | .ok out => (⟨true, input_file, some out, none⟩, b.2)
  | .error e => (⟨false, input_file, none, some e.str⟩, b.2)

/-- `process_batch` (md2pdf_batch.py:143-165): convert the files one
after another, collecting one result per file in order. -/
def process_batch (env : BatchEnv) (files : List String) (format theme : String)
    (output_dir : Option String) : List ConvResult × List Event :=
  match files with
  | [] => ([], [])
  | f :: rest =>
      let r := convert_file env f format theme output_dir
      let rs := process_batch env rest format theme output_dir
      (r.1 :: rs.1, r.2 ++ rs.2)

/-- The parsed command line of the batch CLI (md2pdf_batch.py:168-215). -/
structure Args where
  files : List String
  format : String
  theme : String
  output_mode : String
  output_dir : Option String
  json_output : Bool
deriving DecidableEq, Repr

/-- `Path(parsed.output_dir) if parsed.output_mode == "custom" else None`
(md2pdf_batch.py:230): note `Path(None)` raises `TypeError`. -/
def output_dir_of (parsed : Args) : Except PyExc (Option String) :=
  if parsed.output_mode = "custom" then
    match parsed.output_dir with
    | some d => .ok (some d)
    | none => .error (.typeError "argument should be a str, not NoneType")
  else .ok none

/-- The exception classes caught by `main`'s handler:
`(FileNotFoundError, ValueError)`. -/
def caught_by_main_except : PyExc → Bool
  | .fileNotFoundError _ => true
  | .valueError _ => true
  | _ => false

/-- Outcome of the batch `main`: the exit code (or an uncaught
exception), the event trace, and the error message printed by the
`except` handler when it fired. -/
structure MainOut where
  exit : Except PyExc Nat
  events : List Event
  err_msg : Option String
deriving Repr

/-- The `try` block of `main` (md2pdf_batch.py:222-270): validate the
theme first, then resolve the files, then the output directory, then run
the batch and return 0 exactly when every file succeeded, else 1. -/
def main_try (env : BatchEnv) (parsed : Args) : Except PyExc Nat × List Event :=
  match validate_theme env parsed.theme with
  | .error e => (.error e, [])
  | .ok _ =>
    match resolve_files env parsed.files with
    | .error e => (.error e, [])
    | .ok files =>
      match output_dir_of parsed with
      | .error e => (.error e, [])
      | .ok odir =>
          let pb := process_batch env files parsed.format parsed.theme odir
          let success_count := (pb.1.filter (fun r => r.success)).length
          (.ok (if success_count = pb.1.length then 0 else 1), pb.2)

/-- `main` (md2pdf_batch.py:218-277): the try block, with
`FileNotFoundError` and `ValueError` caught, printed and turned into
exit code 1; any other exception propagates uncaught. -/
def md2pdf_batch_main (env : BatchEnv) (parsed : Args) : MainOut :=
  let t := main_try env parsed
  match t.1 with
  | .ok code => ⟨.ok code, t.2, none⟩
  | .error e =>
      if caught_by_main_except e then ⟨.ok 1, t.2, some e.str⟩
      else ⟨.error e, t.2, none⟩

/-! ### Interactive CLI (src/md2pdf.py) -/

/-- `prompt_filename_default` (md2pdf.py:254-272): the input's stem plus
the output format's extension. -/
def prompt_filename_default (input_file output_format : String) : String :=
  stemOf (nameOf input_file) ++ "." ++ output_format

/-- The custom-name branch of `prompt_filename` (md2pdf.py:301-309): a
name that does not already end in `.{format}` gets `.{format}`
appended. -/
def prompt_filename_custom (custom_name output_format : String) : String :=
  if ends_with custom_name ("." ++ output_format) then custom_name
  else custom_name ++ "." ++ output_format

/-- The world around the interactive CLI's conversion loop. The markdown
renderer, title extraction, theme CSS lookup, mermaid-theme lookup and
the html template are external collaborators per the spec, so they enter
as interface functions. -/
structure CliEnv where
  renderer : Env
  read_text : String → Except PyExc String
  render_markdown : String → String
  extract_title : String → String
  load_theme_css : String → Except PyExc String
  get_mermaid_theme : String → String
  template_exists : Bool
  template_render : String → String → String → String → String
  write_bytes : String → List Nat → Except PyExc Unit
  write_text : String → String → Except PyExc Unit

/-- One iteration of the per-file loop of `process_conversion`
(md2pdf.py:367-416), whole body inside `try`: read, render markdown,
extract title, fill the template, compute the `converted/` output path
(the explicit filename only applies to a single-file run), then either
render to PDF over the already-started client and write bytes, or write
the html. Returns whether the file succeeded. -/
def conv_one (cenv : CliEnv) (config : Config) (client : Option RendererClient)
    (theme_css mermaid_theme : String) (nfiles : Nat) (filename : Option String)
    (output_format file : String) : Bool × List Event :=
  match cenv.read_text file with
  | .error _ => (false, [Event.readFile file])
  | .ok md =>
      let html_content := cenv.render_markdown md
      let title := cenv.extract_title md
      let full_html := cenv.template_render title html_content theme_css mermaid_theme
      let output_dir := joinPath (parentOf file) "converted"
      let output_path :=
        match filename with
        | some fn =>
            if nfiles = 1 then joinPath output_dir fn
            else joinPath output_dir (prompt_filename_default file output_format)
        | none => joinPath output_dir (prompt_filename_default file output_format)
      if output_format = "pdf" then
        match client with
        | none => (false, [Event.readFile file])
        | some cl =>
            let r := render_pdf cenv.renderer cl full_html (some (cli_render_options config))
            match r.1 with
            | .error _ => (false, Event.readFile file :: r.2)
            | .ok pdf_bytes =>
                match cenv.write_bytes output_path pdf_bytes with
                | .error _ =>
                    (false, Event.readFile file :: r.2 ++ [Event.writeFile output_path])
                | .ok _ =>
                    (true, Event.readFile file :: r.2 ++ [Event.writeFile output_path])
      else
        match cenv.write_text output_path full_html with
        | .error _ => (false, [Event.readFile file, Event.writeFile output_path])
        | .ok _ => (true, [Event.readFile file, Event.writeFile output_path])

/-- The per-file loop of `process_conversion`: every failure is caught at
file granularity, counting successes and failures. -/
def conv_loop (cenv : CliEnv) (config : Config) (client : Option RendererClient)
    (theme_css mermaid_theme : String) (nfiles : Nat) (filename : Option String)
    (output_format : String) : List String → (Nat × Nat) × List Event
  | [] => ((0, 0), [])
  | f :: rest =>
      let r := conv_one cenv config client theme_css mermaid_theme nfiles filename
        output_format f
      let k := conv_loop cenv config client theme_css mermaid_theme nfiles filename
        output_format rest
      ((if r.1 then k.1.1 + 1 else k.1.1, if r.1 then k.1.2 else k.1.2 + 1),
       r.2 ++ k.2)

/-- `process_conversion` (md2pdf.py:311-424): resolve the theme CSS and
template (early return on failure), in PDF mode start one renderer client
for the whole run (early return if it fails to start), run the per-file
loop, and stop the client once after the loop. Returns the success and
failure counts. -/
def process_conversion (cenv : CliEnv) (config : Config) (files : List String)
    (output_format theme : String) (filename : Option String) :
    (Nat × Nat) × List Event :=
  match cenv.load_theme_css theme with
  | .error _ => ((0, 0), [])
  | .ok theme_css =>
      let mermaid_theme := cenv.get_mermaid_theme theme
      if cenv.template_exists = false then ((0, 0), [])
      else if output_format = "pdf" then
        let s := start_server cenv.renderer RendererClient.new 10
        match s.1 with
        | .error _ => ((0, 0), s.2.2)
        | .ok _ =>
            let l := conv_loop cenv config (some s.2.1) theme_css mermaid_theme
              files.length filename output_format files
            let st := stop_server cenv.renderer s.2.1
            (l.1, s.2.2 ++ l.2 ++ st.2)
      else
        let l := conv_loop cenv config none theme_css mermaid_theme
          files.length filename output_format files
        (l.1, l.2)

/-! ### Concrete worlds for witnesses -/

/-- A concrete batch world: two markdown files under `docs/`, a glob that
matches them, two themes, and `docs/a.md` unreadable (permission
denied). -/
def benvW : BatchEnv where
  renderer := envOk
  is_file := fun s => s == "docs/a.md" || s == "docs/b.md"
  glob := fun p => if p = "docs/*.md" then ["docs/a.md", "docs/b.md"] else []
  list_themes := ["academic", "minimal"]
  read_text := fun p =>
    if p = "docs/a.md" then .error (.osError "Permission denied") else .ok "# Doc"
  load_config := .ok ⟨none, none⟩
  build_html := fun md _ _ => .ok ("<h1>" ++ md ++ "</h1>")
  write_bytes := fun _ _ => .ok ()
  write_text := fun _ _ => .ok ()

/-- `benvW` with every file readable. -/
def benvC : BatchEnv := { benvW with read_text := fun _ => .ok "# Doc" }

/-- A concrete interactive-CLI world where everything succeeds. -/
def cenvW : CliEnv where
  renderer := envOk
  read_text := fun _ => .ok "# Doc"
  render_markdown := fun s => "<h1>" ++ s ++ "</h1>"
  extract_title := fun _ => "Doc"
  load_theme_css := fun t =>
    if t = "academic" then .ok "css" else .error (.fileNotFoundError "Theme not found")
  get_mermaid_theme := fun _ => "default"
  template_exists := true
  template_render := fun _ c _ _ => c
  write_bytes := fun _ _ => .ok ()
  write_text := fun _ _ => .ok ()

/-! ### Theorems about the batch orchestrator -/

/-- C1: a batch run over N files yields exactly N result entries in input
order — entry k is exactly the conversion result of file k, so no
per-file failure terminates the run early — and a file whose conversion
body raises yields a failure entry carrying that file's identity and the
error message, while a file whose body succeeds yields a success
entry. -/
theorem c1_batch_isolation (env : BatchEnv) (files : List String)
    (format theme : String) (odir : Option String) :
    (process_batch env files format theme odir).1.length = files.length
    ∧ (∀ k, k < files.length →
        ((process_batch env files format theme odir).1)[k]?
          = (files[k]?).map (fun f => (convert_file env f format theme odir).1))
    ∧ (∀ f e, (convert_file_body env f format theme odir).1 = .error e →
        (convert_file env f format theme odir).1 = ⟨false, f, none, some e.str⟩)
    ∧ (∀ f out, (convert_file_body env f format theme odir).1 = .ok out →
        (convert_file env f format theme odir).1 = ⟨true, f, some out, none⟩) := by
  refine ⟨?_, ?_, ?_, ?_⟩
  · induction files with
    | nil => rfl
    | cons f rest ih => simp [process_batch, ih]
  · induction files with
    | nil =>
        intro k hk
        exact absurd hk (Nat.not_lt_zero k)
    | cons f rest ih =>
        intro k hk
        cases k with
        | zero => simp [process_batch]
        | succ k =>
            have hr := ih k (Nat.lt_of_succ_lt_succ hk)
            simpa [process_batch] using hr
  · intro f e he
    simp only [convert_file]
    rw [he]
  · intro f out ho
    simp only [convert_file]
    rw [ho]

/-- Witness for C1: in the concrete world where `docs/a.md` is
unreadable, entry 0 of a two-file batch is the failure entry for
`docs/a.md` with the error message. -/
theorem c1_witness :
    (0 < (["docs/a.md", "docs/b.md"] : List String).length)
    ∧ ((process_batch benvW ["docs/a.md", "docs/b.md"] "html" "academic" none).1)[0]?
        = some ⟨false, "docs/a.md", none, some "Permission denied"⟩ := by
  refine ⟨by decide, ?_⟩
  rw [(c1_batch_isolation benvW ["docs/a.md", "docs/b.md"] "html" "academic" none).2.1 0
    (by decide)]
  decide

/-- Helper: lexicographic comparison is total. -/
theorem charListLe_total (as : List Char) :
    ∀ bs, charListLe as bs = true ∨ charListLe bs as = true := by
  induction as with
  | nil => intro bs; left; rfl
  | cons a as ih =>
      intro bs
      cases bs with
      | nil => right; rfl
      | cons b bs =>
          by_cases hab : a = b
          · subst hab
            simp only [charListLe, if_pos rfl]
            exact ih bs
          · have hba : b ≠ a := fun e => hab e.symm
            rcases lt_or_gt_of_ne hab with h | h
            · left
              simp [charListLe, if_neg hab, h]
            · right
              simp [charListLe, if_neg hba, h]

/-- Helper: lexicographic comparison is transitive. -/
theorem charListLe_trans (as : List Char) :
    ∀ bs cs, charListLe as bs = true → charListLe bs cs = true →
      charListLe as cs = true := by
  induction as with
  | nil => intro bs cs _ _; rfl
  | cons a as ih =>
      intro bs cs h1 h2
      cases bs with
      | nil => simp [charListLe] at h1
      | cons b bs =>
          cases cs with
          | nil => simp [charListLe] at h2
          | cons c cs =>
              by_cases hab : a = b <;> by_cases hbc : b = c
              · subst hab; subst hbc
                simp only [charListLe, if_pos rfl] at h1 h2 ⊢
                exact ih bs cs h1 h2
              · subst hab
                simp only [charListLe, if_neg hbc, decide_eq_true_eq] at h2 ⊢
                exact h2
              · subst hbc
                simp only [charListLe, if_neg hab, decide_eq_true_eq] at h1 ⊢
                exact h1
              · simp only [charListLe, if_neg hab, decide_eq_true_eq] at h1
                simp only [charListLe, if_neg hbc, decide_eq_true_eq] at h2
                have hac : a < c := lt_trans h1 h2
                simp [charListLe, if_neg (ne_of_lt hac), hac]

instance : IsTotal String (fun a b => str_le a b = true) :=
  ⟨fun a b => charListLe_total a.toList b.toList⟩

instance : IsTrans String (fun a b => str_le a b = true) :=
  ⟨fun a b c => charListLe_trans a.toList b.toList c.toList⟩

/-- How one pattern of `resolve_files` can contribute the file `f`:
either the pattern is itself an existing file equal to `f`, or it is a
glob whose matches-that-are-files include `f`. -/
def pattern_yields (env : BatchEnv) (pattern f : String) : Prop :=
  (env.is_file pattern = true ∧ f = pattern)
  ∨ (env.is_file pattern = false
      ∧ f ∈ (env.glob pattern).filter (fun m => env.is_file m))

/-- Helper: membership in a successful `resolve_loop` result is exactly
contribution by some pattern. -/
theorem resolve_loop_mem (env : BatchEnv) :
    ∀ (patterns rs : List String),
      resolve_loop env patterns = .ok rs →
      ∀ f, (f ∈ rs ↔ ∃ p, p ∈ patterns ∧ pattern_yields env p f) := by
  intro patterns
  induction patterns with
  | nil =>
      intro rs h f
      simp only [resolve_loop, Except.ok.injEq] at h
      subst h
      simp
  | cons p rest ih =>
      intro rs h f
      simp only [resolve_loop] at h
      by_cases hp : env.is_file p = true
      · rw [if_pos hp] at h
        cases hres : resolve_loop env rest with
        | error e => rw [hres] at h; simp [Except.map] at h
        | ok rs' =>
            rw [hres] at h
            simp only [Except.map, Except.ok.injEq] at h
            subst h
            have hmem := ih rs' hres f
            simp only [List.mem_cons, hmem]
            constructor
            · rintro (hfp | ⟨q, hq, hy⟩)
              · exact ⟨p, Or.inl rfl, Or.inl ⟨hp, hfp⟩⟩
              · exact ⟨q, Or.inr hq, hy⟩
            · rintro ⟨q, hq, hy⟩
              rcases hq with rfl | hq'
              · rcases hy with ⟨_, hfq⟩ | ⟨hfalse, _⟩
                · exact Or.inl hfq
                · rw [hp] at hfalse; cases hfalse
              · exact Or.inr ⟨q, hq', hy⟩
      · have hp' : env.is_file p = false := by simpa using hp
        rw [if_neg hp] at h
        by_cases hfe : ((env.glob p).filter (fun m => env.is_file m)).isEmpty = true
        · rw [if_pos ⟨hfe, hp'⟩] at h
          cases h
        · rw [if_neg (fun hh => hfe hh.1)] at h
          cases hres : resolve_loop env rest with
          | error e => rw [hres] at h; simp [Except.map] at h
          | ok rs' =>
              rw [hres] at h
              simp only [Except.map, Except.ok.injEq] at h
              subst h
              have hmem := ih rs' hres f
              simp only [List.mem_append, hmem]
              constructor
              · rintro (hin | ⟨q, hq, hy⟩)
                · exact ⟨p, List.mem_cons_self p rest, Or.inr ⟨hp', hin⟩⟩
                · exact ⟨q, List.mem_cons_of_mem p hq, hy⟩
              · rintro ⟨q, hq, hy⟩
                rcases List.mem_cons.mp hq with rfl | hq'
                · rcases hy with ⟨htrue, _⟩ | ⟨_, hin⟩
                  · rw [hp'] at htrue; cases htrue
                  · exact Or.inl hin
                · exact Or.inr ⟨q, hq', hy⟩

/-- Helper: a pattern that is neither an existing file nor matches any
file makes `resolve_loop` fail with `FileNotFoundError`. -/
theorem resolve_loop_err (env : BatchEnv) :
    ∀ patterns : List String,
      (∃ p, p ∈ patterns ∧ env.is_file p = false
        ∧ ((env.glob p).filter (fun m => env.is_file m)).isEmpty = true) →
      ∃ m, resolve_loop env patterns = .error (.fileNotFoundError m) := by
  intro patterns
  induction patterns with
  | nil =>
      rintro ⟨p, hp, _⟩
      simp at hp
  | cons q rest ih =>
      rintro ⟨p, hp, hpf, hpe⟩
      simp only [resolve_loop]
      by_cases hq : env.is_file q = true
      · rw [if_pos hq]
        have hp' : p ∈ rest := by
          rcases List.mem_cons.mp hp with rfl | h
          · rw [hq] at hpf; cases hpf
          · exact h
        obtain ⟨m, hm⟩ := ih ⟨p, hp', hpf, hpe⟩
        rw [hm]
        exact ⟨m, rfl⟩
      · have hq' : env.is_file q = false := by simpa using hq
        by_cases hqe : ((env.glob q).filter (fun m => env.is_file m)).isEmpty = true
        · rw [if_neg hq, if_pos ⟨hqe, hq'⟩]
          exact ⟨_, rfl⟩
        · rw [if_neg hq, if_neg (fun hh => hqe hh.1)]
          have hp' : p ∈ rest := by
            rcases List.mem_cons.mp hp with rfl | h
            · exact absurd hpe hqe
            · exact h
          obtain ⟨m, hm⟩ := ih ⟨p, hp', hpf, hpe⟩
          rw [hm]
          exact ⟨m, rfl⟩

/-- C10: a successful `resolve_files` returns a lexicographically sorted,
duplicate-free list whose members are exactly the files some pattern
contributes (so a file matched by several patterns appears once, in
sorted order regardless of pattern order); and any pattern that is
neither an existing file nor matches at least one file fails the whole
call with `FileNotFoundError`. -/
theorem c10_resolve_sorted_dedup_total (env : BatchEnv) (patterns : List String) :
    (∀ out, resolve_files env patterns = .ok out →
      List.Sorted (fun a b => str_le a b = true) out
      ∧ out.Nodup
      ∧ (∀ f, f ∈ out ↔ ∃ p, p ∈ patterns ∧ pattern_yields env p f))
    ∧ ((∃ p, p ∈ patterns ∧ env.is_file p = false
          ∧ ((env.glob p).filter (fun m => env.is_file m)).isEmpty = true) →
        ∃ m, resolve_files env patterns = .error (.fileNotFoundError m)) := by
  constructor
  · intro out hout
    unfold resolve_files at hout
    cases hres : resolve_loop env patterns with
    | error e => rw [hres] at hout; cases hout
    | ok resolved =>
        rw [hres] at hout
        dsimp only at hout
        by_cases hemp : resolved.isEmpty = true
        · rw [if_pos hemp] at hout; cases hout
        · rw [if_neg hemp] at hout
          injection hout with hout
          subst hout
          have hperm := List.perm_insertionSort
            (fun a b => str_le a b = true) resolved.dedup
          refine ⟨List.sorted_insertionSort _ _, ?_, ?_⟩
          · exact hperm.nodup_iff.mpr resolved.nodup_dedup
          · intro f
            rw [sorted_set, hperm.mem_iff, List.mem_dedup]
            exact resolve_loop_mem env patterns resolved hres f
  · intro hbad
    obtain ⟨m, hm⟩ := resolve_loop_err env patterns hbad
    refine ⟨m, ?_⟩
    unfold resolve_files
    rw [hm]

/-- Witness for C10: the pattern `docs/nope-*.md` matches nothing in the
concrete world, so the whole call fails. -/
theorem c10_witness :
    (("docs/nope-*.md" : String) ∈ (["docs/*.md", "docs/nope-*.md"] : List String)
      ∧ benvW.is_file "docs/nope-*.md" = false
      ∧ ((benvW.glob "docs/nope-*.md").filter (fun m => benvW.is_file m)).isEmpty
          = true)
    ∧ ∃ m, resolve_files benvW ["docs/*.md", "docs/nope-*.md"]
        = .error (.fileNotFoundError m) := by
  refine ⟨⟨by decide, by decide, by decide⟩, ?_⟩
  exact (c10_resolve_sorted_dedup_total benvW ["docs/*.md", "docs/nope-*.md"]).2
    ⟨"docs/nope-*.md", by decide, by decide, by decide⟩

/-- Helper: the filtered list has full length exactly when every element
passes the filter. -/
theorem length_filter_eq_iff {α : Type} (p : α → Bool) (l : List α) :
    ((l.filter p).length = l.length) ↔ (∀ a ∈ l, p a = true) := by
  induction l with
  | nil => simp
  | cons a l ih =>
      by_cases hpa : p a = true
      · simp [List.filter_cons, hpa, ih]
      · have hle := List.length_filter_le p l
        have hpa' : p a = false := by simpa using hpa
        simp only [List.filter_cons, hpa', Bool.false_eq_true, if_false,
          List.length_cons]
        constructor
        · intro h
          omega
        · intro h
          exact absurd (h a (List.mem_cons_self a l)) hpa

/-- C8: the batch CLI's `main` validates the theme before anything else —
an unknown theme exits with code 1, the theme error message, and an empty
trace (no file resolved or processed); with a valid theme, a failing
`resolve_files` (for instance a selection matching zero files) exits with
code 1, its `FileNotFoundError` message, and an empty trace; and once the
preconditions pass, `main` exits 0 exactly when every file in the batch
succeeded, else 1. -/
theorem c8_exit_codes (env : BatchEnv) (parsed : Args) :
    (parsed.theme ∉ env.list_themes →
       md2pdf_batch_main env parsed
         = ⟨.ok 1, [], some ("Theme " ++ parsed.theme ++ " not found")⟩)
    ∧ (∀ m, parsed.theme ∈ env.list_themes →
       resolve_files env parsed.files = .error (.fileNotFoundError m) →
       md2pdf_batch_main env parsed = ⟨.ok 1, [], some m⟩)
    ∧ (∀ files odir, parsed.theme ∈ env.list_themes →
       resolve_files env parsed.files = .ok files →
       output_dir_of parsed = .ok odir →
       (md2pdf_batch_main env parsed).exit
         = .ok (if ∀ r ∈ (process_batch env files parsed.format parsed.theme odir).1,
                    r.success = true then 0 else 1)) := by
  refine ⟨?_, ?_, ?_⟩
  · intro h
    unfold md2pdf_batch_main main_try validate_theme
    rw [if_neg h]
    rfl
  · intro m hin hres
    unfold md2pdf_batch_main main_try validate_theme
    rw [if_pos hin, hres]
    rfl
  · intro files odir hin hres hod
    unfold md2pdf_batch_main main_try validate_theme
    rw [if_pos hin, hres, hod]
    dsimp only
    exact congrArg Except.ok (if_congr (length_filter_eq_iff _ _) rfl rfl)

/-- Witness for C8: an unknown theme in the concrete world exits 1 with
the theme message and an empty trace. -/
theorem c8_witness :
    (("nope" : String) ∉ benvW.list_themes)
    ∧ md2pdf_batch_main benvW ⟨["docs/a.md"], "html", "nope", "same-dir", none, false⟩
        = ⟨.ok 1, [], some ("Theme " ++ "nope" ++ " not found")⟩ := by
  refine ⟨by decide, ?_⟩
  exact (c8_exit_codes benvW ⟨["docs/a.md"], "html", "nope", "same-dir", none, false⟩).1
    (by decide)

/-- Helper: `render_pdf` always records exactly one POST. -/
theorem render_pdf_events (env : Env) (c : RendererClient) (html : String)
    (opts : Option RenderOptions) :
    (render_pdf env c html opts).2 = [Event.postPdf html opts] := by
  unfold render_pdf
  cases (env.post_pdf html).bind raise_for_status with
  | ok r => rfl
  | error e => by_cases ht : e.isTimeout = true <;> simp [ht]

/-- Helper: spawn counting distributes over trace concatenation. -/
theorem countSpawn_append (a b : List Event) :
    countSpawn (a ++ b) = countSpawn a + countSpawn b := by
  simp [countSpawn, List.filter_append]

/-- Helper: terminate counting distributes over trace concatenation. -/
theorem countTerminate_append (a b : List Event) :
    countTerminate (a ++ b) = countTerminate a + countTerminate b := by
  simp [countTerminate, List.filter_append]

/-- Helper: stopping an owned process spawns nothing and terminates
exactly once. -/
theorem stop_server_counts (env : Env) (c : RendererClient) (pid : Nat)
    (h : c.server_process = some pid) :
    countSpawn (stop_server env c).2 = 0
    ∧ countTerminate (stop_server env c).2 = 1 := by
  unfold stop_server
  rw [h]
  by_cases hw : env.wait_exits pid = true <;>
    simp [hw, countSpawn, countTerminate, List.filter]

/-- Helper: a first healthy poll makes the retry loop return at once. -/
theorem start_retry_loop_healthy (env : Env) (c : RendererClient) (i fuel : Nat)
    (hh : (health_check env i).1 = .ok (some "healthy")) :
    start_retry_loop env c i (fuel + 1) = (.ok (), c, (health_check env i).2) := by
  simp only [start_retry_loop]
  rw [hh]
  dsimp only
  rw [if_pos rfl]

/-- Helper: from the not-started state with `server.js` present and an
immediately healthy poll, `start_server` succeeds after one spawn and one
poll. -/
theorem start_server_healthy (env : Env) (c : RendererClient) (mr : Nat)
    (hnone : c.server_process = none) (hjs : env.server_js_exists = true)
    (hh : (health_check env 0).1 = .ok (some "healthy")) (hmr : mr ≠ 0) :
    start_server env c mr
      = (.ok (), { c with server_process := some env.spawn_pid },
         [Event.spawn c.port, Event.healthGet]) := by
  obtain ⟨fuel, rfl⟩ : ∃ fl, mr = fl + 1 := ⟨mr - 1, by omega⟩
  have hloop := start_retry_loop_healthy env
    { c with server_process := some env.spawn_pid } 0 fuel hh
  unfold start_server
  rw [hnone, hjs]
  simp only [Option.isSome_none, Bool.false_eq_true, if_false, Bool.true_eq_false]
  rw [hloop, health_check_events]

/-- Helper: a successful scoped acquisition whose body makes no lifecycle
events has exactly one spawn and one terminate in its trace. -/
theorem withClient_counts {α : Type} (env : Env) (mr : Nat)
    (body : RendererClient → Except PyExc α × List Event)
    (hjs : env.server_js_exists = true)
    (hh : (health_check env 0).1 = .ok (some "healthy")) (hmr : mr ≠ 0)
    (hbody : ∀ cl, countSpawn (body cl).2 = 0 ∧ countTerminate (body cl).2 = 0) :
    countSpawn (withClient env RendererClient.new mr body).2.2 = 1
    ∧ countTerminate (withClient env RendererClient.new mr body).2.2 = 1 := by
  have hs := start_server_healthy env RendererClient.new mr rfl hjs hh hmr
  have hstop := stop_server_counts env
    { RendererClient.new with server_process := some env.spawn_pid } env.spawn_pid rfl
  have hb := hbody { RendererClient.new with server_process := some env.spawn_pid }
  have e1 : countSpawn [Event.spawn RendererClient.new.port, Event.healthGet] = 1 := rfl
  have e2 : countTerminate [Event.spawn RendererClient.new.port, Event.healthGet] = 0 := rfl
  unfold withClient
  rw [hs]
  dsimp only
  rw [countSpawn_append, countSpawn_append, countTerminate_append,
    countTerminate_append, e1, e2, hb.1, hb.2, hstop.1, hstop.2]
  exact ⟨rfl, rfl⟩

/-- Helper: `pbind` after a success. -/
theorem pbind_ok {α β : Type} (r : Except PyExc α) (evs : List Event) (a : α)
    (f : α → Except PyExc β × List Event) (h : r = .ok a) :
    pbind (r, evs) f = ((f a).1, evs ++ (f a).2) := by
  unfold pbind
  dsimp only
  rw [h]

/-- Helper: `pbind` after a failure. -/
theorem pbind_error {α β : Type} (r : Except PyExc α) (evs : List Event) (e : PyExc)
    (f : α → Except PyExc β × List Event) (h : r = .error e) :
    pbind (r, evs) f = (.error e, evs) := by
  unfold pbind
  dsimp only
  rw [h]

/-- Helper: in PDF mode a file whose read/config/build steps succeed
makes exactly one spawn and one terminate during its conversion — the
fresh scoped client of that one file. -/
theorem convert_file_pdf_counts (env : BatchEnv) (f theme : String)
    (odir : Option String) (md : String) (config : Config) (html : String)
    (hjs : env.renderer.server_js_exists = true)
    (hh : (health_check env.renderer 0).1 = .ok (some "healthy"))
    (hread : env.read_text f = .ok md)
    (hcfg : env.load_config = .ok config)
    (hb : env.build_html md theme config = .ok html) :
    countSpawn (convert_file env f "pdf" theme odir).2 = 1
    ∧ countTerminate (convert_file env f "pdf" theme odir).2 = 1 := by
  have hev : (convert_file env f "pdf" theme odir).2
      = (convert_file_body env f "pdf" theme odir).2 := by
    unfold convert_file
    dsimp only
    cases h1 : (convert_file_body env f "pdf" theme odir).1 <;> rfl
  have hwc := withClient_counts env.renderer 10
    (fun cl => render_pdf env.renderer cl html (some (batch_render_options config)))
    hjs hh (by omega)
    (fun cl => by rw [render_pdf_events]; exact ⟨rfl, rfl⟩)
  have e1 : countSpawn [Event.readFile f] = 0 := rfl
  have e2 : countTerminate [Event.readFile f] = 0 := rfl
  have z1 : countSpawn ([] : List Event) = 0 := rfl
  have z2 : countTerminate ([] : List Event) = 0 := rfl
  have z3 : countSpawn [Event.writeFile (batch_output_path f "pdf" odir)] = 0 := rfl
  have z4 : countTerminate [Event.writeFile (batch_output_path f "pdf" odir)] = 0 := rfl
  rw [hev]
  unfold convert_file_body
  rw [pbind_ok _ _ _ _ hread]
  try dsimp only
  rw [pbind_ok _ _ _ _ hcfg]
  try dsimp only
  rw [pbind_ok _ _ _ _ hb]
  try dsimp only
  rw [if_pos rfl]
  try dsimp only
  cases hw1 : (withClient env.renderer RendererClient.new 10
      (fun cl => render_pdf env.renderer cl html (some (batch_render_options config)))).1 with
  | error e =>
      rw [pbind_error _ _ e _ rfl]
      try dsimp only
      rw [countSpawn_append, countSpawn_append, countSpawn_append,
        countTerminate_append, countTerminate_append, countTerminate_append,
        e1, e2, z1, z2, hwc.1, hwc.2]
      omega
  | ok pdf_bytes =>
      rw [pbind_ok _ _ pdf_bytes _ rfl]
      try dsimp only
      cases hwr : env.write_bytes (batch_output_path f "pdf" odir) pdf_bytes with
      | error e =>
          rw [pbind_error _ _ e _ rfl]
          try dsimp only
          rw [countSpawn_append, countSpawn_append, countSpawn_append,
            countSpawn_append, countTerminate_append, countTerminate_append,
            countTerminate_append, countTerminate_append,
            e1, e2, z1, z2, z3, z4, hwc.1, hwc.2]
          omega
      | ok u =>
          rw [pbind_ok _ _ u _ rfl]
          try dsimp only
          rw [countSpawn_append, countSpawn_append, countSpawn_append,
            countSpawn_append, countSpawn_append, countTerminate_append,
            countTerminate_append, countTerminate_append, countTerminate_append,
            countTerminate_append, e1, e2, z1, z2, z3, z4, hwc.1, hwc.2]
          omega

/-- Helper: a PDF batch whose files all pass read/config/build spawns and
terminates one renderer process per file. -/
theorem process_batch_pdf_counts (env : BatchEnv) (theme : String)
    (odir : Option String)
    (hjs : env.renderer.server_js_exists = true)
    (hh : (health_check env.renderer 0).1 = .ok (some "healthy")) :
    ∀ files : List String,
      (∀ f ∈ files, ∃ md config html, env.read_text f = .ok md
        ∧ env.load_config = .ok config ∧ env.build_html md theme config = .ok html) →
      countSpawn (process_batch env files "pdf" theme odir).2 = files.length
      ∧ countTerminate (process_batch env files "pdf" theme odir).2 = files.length := by
  intro files
  induction files with
  | nil => intro _; exact ⟨rfl, rfl⟩
  | cons f rest ih =>
      intro hsteps
      obtain ⟨md, config, html, h1, h2, h3⟩ := hsteps f (List.mem_cons_self f rest)
      have hf := convert_file_pdf_counts env f theme odir md config html hjs hh h1 h2 h3
      have hrest := ih (fun g hg => hsteps g (List.mem_cons_of_mem f hg))
      simp only [process_batch]
      rw [countSpawn_append, countTerminate_append, hf.1, hf.2, hrest.1, hrest.2,
        List.length_cons]
      omega

/-- Helper: one iteration of the interactive per-file loop makes no
lifecycle events — only reads, POSTs and writes. -/
theorem conv_one_counts (cenv : CliEnv) (config : Config)
    (client : Option RendererClient) (theme_css mermaid_theme : String)
    (nfiles : Nat) (filename : Option String) (output_format file : String) :
    countSpawn (conv_one cenv config client theme_css mermaid_theme nfiles filename
      output_format file).2 = 0
    ∧ countTerminate (conv_one cenv config client theme_css mermaid_theme nfiles
      filename output_format file).2 = 0 := by
  unfold conv_one
  cases hr : cenv.read_text file with
  | error e => exact ⟨rfl, rfl⟩
  | ok md =>
      try dsimp only
      by_cases hf : output_format = "pdf"
      · rw [if_pos hf]
        cases client with
        | none => exact ⟨rfl, rfl⟩
        | some cl =>
            try dsimp only
            rw [render_pdf_events]
            cases (render_pdf cenv.renderer cl
                (cenv.template_render (cenv.extract_title md)
                  (cenv.render_markdown md) theme_css mermaid_theme)
                (some (cli_render_options config))).1 with
            | error e => exact ⟨rfl, rfl⟩
            | ok pdf_bytes =>
                try dsimp only
                cases cenv.write_bytes
                    (match filename with
                      | some fn =>
                          if nfiles = 1 then
                            joinPath (joinPath (parentOf file) "converted") fn
                          else joinPath (joinPath (parentOf file) "converted")
                            (prompt_filename_default file output_format)
                      | none => joinPath (joinPath (parentOf file) "converted")
                          (prompt_filename_default file output_format)) pdf_bytes with
                | error e => exact ⟨rfl, rfl⟩
                | ok u => exact ⟨rfl, rfl⟩
      · rw [if_neg hf]
        cases cenv.write_text
            (match filename with
              | some fn =>
                  if nfiles = 1 then
                    joinPath (joinPath (parentOf file) "converted") fn
                  else joinPath (joinPath (parentOf file) "converted")
                    (prompt_filename_default file output_format)
              | none => joinPath (joinPath (parentOf file) "converted")
                  (prompt_filename_default file output_format))
            (cenv.template_render (cenv.extract_title md) (cenv.render_markdown md)
              theme_css mermaid_theme) with
        | error e => exact ⟨rfl, rfl⟩
        | ok u => exact ⟨rfl, rfl⟩

/-- Helper: the whole interactive per-file loop makes no lifecycle
events. -/
theorem conv_loop_counts (cenv : CliEnv) (config : Config)
    (client : Option RendererClient) (theme_css mermaid_theme : String)
    (nfiles : Nat) (filename : Option String) (output_format : String) :
    ∀ files : List String,
      countSpawn (conv_loop cenv config client theme_css mermaid_theme nfiles
        filename output_format files).2 = 0
      ∧ countTerminate (conv_loop cenv config client theme_css mermaid_theme nfiles
        filename output_format files).2 = 0 := by
  intro files
  induction files with
  | nil => exact ⟨rfl, rfl⟩
  | cons f rest ih =>
      have h1 := conv_one_counts cenv config client theme_css mermaid_theme nfiles
        filename output_format f
      simp only [conv_loop]
      rw [countSpawn_append, countTerminate_append, h1.1, h1.2, ih.1, ih.2]
      omega

/-- Helper: the interactive orchestrator in PDF mode, once its
preconditions pass and the renderer starts cleanly, spawns exactly one
process before the loop and terminates exactly one after it — regardless
of any per-file failures. -/
theorem process_conversion_pdf_counts (cenv : CliEnv) (config : Config)
    (files : List String) (theme : String) (filename : Option String) (css : String)
    (hcss : cenv.load_theme_css theme = .ok css)
    (htpl : cenv.template_exists = true)
    (hjs : cenv.renderer.server_js_exists = true)
    (hh : (health_check cenv.renderer 0).1 = .ok (some "healthy")) :
    countSpawn (process_conversion cenv config files "pdf" theme filename).2 = 1
    ∧ countTerminate (process_conversion cenv config files "pdf" theme filename).2
        = 1 := by
  have hs := start_server_healthy cenv.renderer RendererClient.new 10 rfl hjs hh
    (by omega)
  have hloop := conv_loop_counts cenv config
    (some { RendererClient.new with server_process := some cenv.renderer.spawn_pid })
    css (cenv.get_mermaid_theme theme) files.length filename "pdf" files
  have hstop := stop_server_counts cenv.renderer
    { RendererClient.new with server_process := some cenv.renderer.spawn_pid }
    cenv.renderer.spawn_pid rfl
  have e1 : countSpawn [Event.spawn RendererClient.new.port, Event.healthGet] = 1 := rfl
  have e2 : countTerminate [Event.spawn RendererClient.new.port, Event.healthGet] = 0 :=
    rfl
  unfold process_conversion
  rw [hcss]
  try dsimp only
  rw [htpl]
  rw [if_neg (by simp), if_pos rfl, hs]
  try dsimp only
  rw [countSpawn_append, countSpawn_append, countTerminate_append,
    countTerminate_append, e1, e2, hloop.1, hloop.2, hstop.1, hstop.2]
  omega

/-- C4 counterexample: in a concrete well-behaved world, a two-file PDF
batch spawns and terminates a renderer process twice — not the single
whole-run start/stop the claim asserts. -/
theorem c4_counterexample :
    countSpawn (process_batch benvC ["docs/a.md", "docs/b.md"] "pdf" "academic"
      none).2 = 2
    ∧ countSpawn (process_batch benvC ["docs/a.md", "docs/b.md"] "pdf" "academic"
      none).2 ≠ 1
    ∧ countTerminate (process_batch benvC ["docs/a.md", "docs/b.md"] "pdf" "academic"
      none).2 = 2 := by
  refine ⟨by decide, by decide, by decide⟩

/-- C4 (amended): a PDF-mode batch run acquires a fresh Renderer Process
Manager per input file — N files give N spawns and N terminates, each
scoped by the per-file context manager — while the interactive
orchestrator `process_conversion` is the one that acquires it once for
the whole run: exactly one spawn before the first file and one terminate
after the last, whatever the per-file outcomes. -/
theorem c4_acquisition_per_file_batch_once_interactive
    (benv : BatchEnv) (files : List String) (theme : String) (odir : Option String)
    (cenv : CliEnv) (config : Config) (cfiles : List String) (ctheme : String)
    (filename : Option String) (css : String)
    (hjs : benv.renderer.server_js_exists = true)
    (hh : (health_check benv.renderer 0).1 = .ok (some "healthy"))
    (hsteps : ∀ f ∈ files, ∃ md config1 html, benv.read_text f = .ok md
        ∧ benv.load_config = .ok config1 ∧ benv.build_html md theme config1 = .ok html)
    (hcss : cenv.load_theme_css ctheme = .ok css)
    (htpl : cenv.template_exists = true)
    (hjs2 : cenv.renderer.server_js_exists = true)
    (hh2 : (health_check cenv.renderer 0).1 = .ok (some "healthy")) :
    (countSpawn (process_batch benv files "pdf" theme odir).2 = files.length
      ∧ countTerminate (process_batch benv files "pdf" theme odir).2 = files.length)
    ∧ (countSpawn (process_conversion cenv config cfiles "pdf" ctheme filename).2 = 1
      ∧ countTerminate (process_conversion cenv config cfiles "pdf" ctheme
          filename).2 = 1) :=
  ⟨process_batch_pdf_counts benv theme odir hjs hh files hsteps,
   process_conversion_pdf_counts cenv config cfiles ctheme filename css hcss htpl
     hjs2 hh2⟩

/-- Witness for the amended C4 in the concrete worlds: two files, two
spawns in the batch trace, one spawn in the interactive trace. -/
theorem c4_amended_witness :
    (benvC.renderer.server_js_exists = true
      ∧ (health_check benvC.renderer 0).1 = .ok (some "healthy")
      ∧ cenvW.load_theme_css "academic" = .ok "css"
      ∧ cenvW.template_exists = true)
    ∧ countSpawn (process_batch benvC ["docs/a.md", "docs/b.md"] "pdf" "academic"
        none).2 = (["docs/a.md", "docs/b.md"] : List String).length
    ∧ countSpawn (process_conversion cenvW ⟨none, none⟩ ["docs/a.md", "docs/b.md"]
        "pdf" "academic" none).2 = 1 := by
  refine ⟨⟨rfl, rfl, rfl, rfl⟩, ?_, ?_⟩
  · exact (c4_acquisition_per_file_batch_once_interactive benvC
      ["docs/a.md", "docs/b.md"] "academic" none cenvW ⟨none, none⟩
      ["docs/a.md", "docs/b.md"] "academic" none "css" rfl rfl
      (fun f _ => ⟨"# Doc", ⟨none, none⟩, "<h1>" ++ "# Doc" ++ "</h1>", rfl, rfl, rfl⟩)
      rfl rfl rfl rfl).1.1
  · exact (c4_acquisition_per_file_batch_once_interactive benvC
      ["docs/a.md", "docs/b.md"] "academic" none cenvW ⟨none, none⟩
      ["docs/a.md", "docs/b.md"] "academic" none "css" rfl rfl
      (fun f _ => ⟨"# Doc", ⟨none, none⟩, "<h1>" ++ "# Doc" ++ "</h1>", rfl, rfl, rfl⟩)
      rfl rfl rfl rfl).2.1

/-! ### Filename policy (C9) -/

/-- C9 evaluation at the claim's inputs: the default filename for
`notes.md` in PDF format is `notes.pdf` as claimed, but a custom name
with the wrong extension is corrected by appending — `out.html` with
format `pdf` becomes `out.html.pdf`, not the `out.pdf` the claim (and
the repository's own test
`test_prompt_filename_wrong_extension_corrected`) expects. -/
theorem c9_extension_divergence :
    prompt_filename_default "notes.md" "pdf" = "notes.pdf"
    ∧ prompt_filename_custom "out.html" "pdf" = "out.html.pdf"
    ∧ prompt_filename_custom "out.html" "pdf" ≠ "out.pdf" := by
  refine ⟨by decide, by decide, by decide⟩

end Md2Pdf
